import Mathlib

/-!
Verification of the grid movement & collision core of the TALE tile-world game.

The Rust source is shallowly embedded: `f32` world coordinates become exact
rationals (`ℚ`), the row-major tile grid `Vec<Vec<Tile>>` becomes
`List (List Tile)`, and every query is a computable Lean function mirroring the
corresponding Rust method statement by statement.  Rust's saturating
`f32 -> usize` cast is modelled by `Int.toNat ∘ Int.floor`, and `f32::signum`
(which returns `1.0` on `+0.0`, never `0.0`) is modelled by `sgnF`.
-/

namespace Tale

/-- Tile kinds, from `src/rooms/grid_room.rs` (`enum Tile`). -/
inductive Tile where
  | Floor
  | Wall
  | DoorClosed
  | DoorOpen
  | Bed
  | Fwall
  | Table
deriving DecidableEq

/-- A room's tile grid: `height` rows, each a list of tiles (row-major). -/
abbrev Grid := List (List Tile)

/-- Tile size constant `TILE_SIZE` from `src/rooms/mod.rs`. -/
def TILE : ℚ := 32

/-- Read the tile at column `tx`, row `ty` (defaulting to `Floor` out of range;
the embedded code only reads after its own bounds checks). -/
def tileAt (tiles : Grid) (tx ty : ℕ) : Tile :=
  (tiles.getD ty []).getD tx Tile.Floor

/-- Write the tile at row `ty`, column `tx` (`self.tiles[ty][tx] = t`). -/
def setTile (tiles : Grid) (ty tx : ℕ) (t : Tile) : Grid :=
  tiles.set ty ((tiles.getD ty []).set tx t)

/-- The inclusive integer range `a..=b` as a list (empty when `b < a`),
modelling the Rust `for i in a..=b` loop index sequence. -/
def intRange (a b : ℤ) : List ℤ :=
  (List.range (b + 1 - a).toNat).map (fun i : ℕ => a + (i : ℤ))

/-- Predicate `matches!(t, Tile::Wall | Tile::DoorClosed)`: the neighbor kinds
counted when inferring an open door's orientation. -/
def isWallLike (t : Tile) : Bool :=
  match t with
  | Tile.Wall => true
  | Tile.DoorClosed => true
  | _ => false

/-- The `Tile::DoorOpen` arm of `GridRoom::is_rect_free`: whether the probe
rectangle overlaps the thin door-frame strips (8% of `TILE_SIZE`) on the sides
perpendicular to the door's inferred orientation. -/
def doorFrameBlocked (tiles : Grid) (x y w h : ℚ) (txu tyu : ℕ) : Bool :=
  let doorLeft : ℚ := (txu : ℚ) * TILE
  let doorRight : ℚ := ((txu : ℚ) + 1) * TILE
  let doorTop : ℚ := (tyu : ℚ) * TILE
  let doorBottom : ℚ := ((tyu : ℚ) + 1) * TILE
  let frame : ℚ := TILE * (8 / 100)
  let height := tiles.length
  let width := if 0 < height then (tiles.getD 0 []).length else 0
  let horiz : ℕ :=
    (if 0 < txu ∧ isWallLike (tileAt tiles (txu - 1) tyu) then 1 else 0) +
    (if txu + 1 < width ∧ isWallLike (tileAt tiles (txu + 1) tyu) then 1 else 0)
  let vert : ℕ :=
    (if 0 < tyu ∧ isWallLike (tileAt tiles txu (tyu - 1)) then 1 else 0) +
    (if tyu + 1 < height ∧ isWallLike (tileAt tiles txu (tyu + 1)) then 1 else 0)
  if vert ≤ horiz then
    decide ((y < doorTop + frame ∧ y + h > doorTop) ∨
            (y < doorBottom ∧ y + h > doorBottom - frame))
  else
    decide ((x < doorLeft + frame ∧ x + w > doorLeft) ∨
            (x < doorRight ∧ x + w > doorRight - frame))

/-- One iteration of the `is_rect_free` tile loop: `true` when cell `(tx,ty)`
does not force an early `return false`. -/
def cellFree (tiles : Grid) (x y w h : ℚ) (ty tx : ℤ) : Bool :=
  if ty < 0 ∨ tx < 0 then false
  else if tiles.length ≤ ty.toNat then false
  else if (tiles.getD ty.toNat []).length ≤ tx.toNat then false
  else
    match tileAt tiles tx.toNat ty.toNat with
    | Tile.Wall => false
    | Tile.DoorClosed => false
    | Tile.Fwall => false
    | Tile.Table => false
    | Tile.Bed => true
    | Tile.DoorOpen => !(doorFrameBlocked tiles x y w h tx.toNat ty.toNat)
    | Tile.Floor => true

/-- Core collision query `GridRoom::is_rect_free`: axis-aligned rectangle vs.
tile collision. -/
def is_rect_free (tiles : Grid) (x y w h : ℚ) : Bool :=
  if x < 0 ∨ y < 0 then false
  else
    let left := ⌊x / TILE⌋
    let right := ⌊(x + w) / TILE⌋
    let top := ⌊y / TILE⌋
    let bottom := ⌊(y + h) / TILE⌋
    (intRange top bottom).all fun ty =>
      (intRange left right).all fun tx => cellFree tiles x y w h ty tx

/-- Point query `GridRoom::is_solid_at_point`. -/
def is_solid_at_point (tiles : Grid) (x y : ℚ) : Bool :=
  is_rect_free tiles x y 1 1 == false

/-- Interaction `GridRoom::interact_tile`: toggle a door, returning the new grid and
whether a toggle occurred. -/
def interact_tile (tiles : Grid) (tx ty : ℕ) : Grid × Bool :=
  if tiles.length ≤ ty ∨ (tiles.getD 0 []).length ≤ tx then (tiles, false)
  else
    match tileAt tiles tx ty with
    | Tile.DoorClosed => (setTile tiles ty tx Tile.DoorOpen, true)
    | Tile.DoorOpen => (setTile tiles ty tx Tile.DoorClosed, true)
    | _ => (tiles, false)

/-- Adjacency gate `GridRoom::can_interact_tile`: door tiles only, orthogonally adjacent to
the player's cell. -/
def can_interact_tile (tiles : Grid) (tx ty ptx pty : ℕ) : Bool :=
  if tiles.length ≤ ty ∨ (tiles.getD 0 []).length ≤ tx then false
  else
    match tileAt tiles tx ty with
    | Tile.DoorClosed =>
        let dx := ((tx : ℤ) - (ptx : ℤ)).natAbs
        let dy := ((ty : ℤ) - (pty : ℤ)).natAbs
        decide ((dx = 1 ∧ dy = 0) ∨ (dx = 0 ∧ dy = 1))
    | Tile.DoorOpen =>
        let dx := ((tx : ℤ) - (ptx : ℤ)).natAbs
        let dy := ((ty : ℤ) - (pty : ℤ)).natAbs
        decide ((dx = 1 ∧ dy = 0) ∨ (dx = 0 ∧ dy = 1))
    | _ => false

/-- Tile index `(q / TILE_SIZE).floor() as usize`: Rust's float-to-`usize` cast
saturates negative values to `0`. -/
def tileIndexSat (q : ℚ) : ℕ := (⌊q / TILE⌋).toNat

/-- Helper `GridRoom::is_on_top_bed_tile`: the four walkable Bed cells
`(1..2, height-4..height-3)`. -/
def is_on_top_bed_tile (tiles : Grid) (x y : ℚ) : Bool :=
  let tx := tileIndexSat x
  let ty := tileIndexSat y
  let height := tiles.length
  if 4 ≤ height ∧ 1 ≤ tx ∧ tx ≤ 2 then
    decide (ty = height - 4 ∨ ty = height - 3)
  else false

/-- Helper `GridRoom::is_bed_door_tile`: the right column of the walkable bed area,
cells `(2, height-4)` and `(2, height-3)`. -/
def is_bed_door_tile (tiles : Grid) (x y : ℚ) : Bool :=
  let tx := tileIndexSat x
  let ty := tileIndexSat y
  let height := tiles.length
  if 4 ≤ height ∧ tx = 2 then
    decide (ty = height - 4 ∨ ty = height - 3)
  else false

/-- Movement rule `GridRoom::is_movement_allowed`: base rectangle collision plus the
directional bed-nook rules. -/
def is_movement_allowed (tiles : Grid) (from_x from_y to_x to_y w h : ℚ) : Bool :=
  if !(is_rect_free tiles to_x to_y w h) then false
  else
    let from_on_bed := is_on_top_bed_tile tiles from_x from_y
    let to_on_bed := is_on_top_bed_tile tiles to_x to_y
    if from_on_bed && !to_on_bed && decide (to_y < from_y) &&
        decide (4 ≤ tiles.length ∧ tileIndexSat from_y = tiles.length - 4) then
      false
    else if !from_on_bed && to_on_bed then
      decide (to_x < from_x) && is_bed_door_tile tiles to_x to_y
    else if from_on_bed && !to_on_bed then
      decide (to_x > from_x) && is_bed_door_tile tiles from_x from_y
    else true

/-- Constructor `GridRoom::new(width, height)`: bordered floor grid with a top-center
closed door, a 2×3 bed block (top 2×2 walkable `Bed`, bottom row `Fwall`)
flush with the left wall, and two `Table` tiles above it. -/
def gridRoomNew (width height : ℕ) : Grid :=
  let t0 : Grid := List.replicate height (List.replicate width Tile.Floor)
  let t1 := (List.range width).foldl
    (fun g xi => setTile (setTile g 0 xi Tile.Wall) (height - 1) xi Tile.Wall) t0
  let t2 := (List.range height).foldl
    (fun g yi => setTile (setTile g yi 0 Tile.Wall) yi (width - 1) Tile.Wall) t1
  let t3 := setTile t2 0 (width / 2) Tile.DoorClosed
  if 3 < width ∧ 4 < height then
    let t4 := (List.range 3).foldl
      (fun g bi => (List.range 2).foldl
        (fun g2 bx =>
          setTile g2 (height - 4 + bi) (1 + bx)
            (if bi < 2 then Tile.Bed else Tile.Fwall)) g) t3
    if 5 ≤ height then
      setTile (setTile t4 (height - 5) 1 Tile.Table) (height - 5) 2 Tile.Table
    else t4
  else t3

/-- Pixel width `width_pixels` (`row.len() * TILE_SIZE as usize`, `0` for an
empty grid). -/
def widthPixels (tiles : Grid) : ℕ := (tiles.getD 0 []).length * 32

/-- Pixel height `height_pixels`. -/
def heightPixels (tiles : Grid) : ℕ := tiles.length * 32

/-- The single starting room, `GridRoom::new(20, 15)` (`Map::new`). -/
def room20x15 : Grid := gridRoomNew 20 15

/-- Room collection `Map` from `src/map.rs`: an ordered list of rooms (the only concrete room
kind is `GridRoom`, so rooms are tile grids) plus the active index. -/
structure Map where
  rooms : List Grid
  current : ℕ
deriving DecidableEq

/-- Constructor `Map::new`: a single 20×15 `GridRoom`, active index `0`. -/
def Map.new : Map := { rooms := [room20x15], current := 0 }

/-- Room switch `Map::set_current`. -/
def Map.set_current (m : Map) (idx : ℕ) : Map :=
  if idx < m.rooms.length then { m with current := idx } else m

/-- Append `Map::add_room`: add a room, returning the new map and its index. -/
def Map.add_room (m : Map) (room : Grid) : Map × ℕ :=
  ({ m with rooms := m.rooms ++ [room] }, m.rooms.length)

/-- The grid of the map's active room (`self.rooms[self.current]`). -/
def Map.activeGrid (m : Map) : Grid := m.rooms.getD m.current []

/-- Sign function `f32::signum`: `1.0` for positive numbers and `+0.0`, `-1.0`
for negative numbers (exact rationals have no NaN or negative zero). -/
def sgnF (q : ℚ) : ℚ := if q < 0 then -1 else 1

/-- Rounding `f32::round`: round half away from zero. -/
def rustRound (q : ℚ) : ℤ := if 0 ≤ q then ⌊q + 1 / 2⌋ else -⌊-q + 1 / 2⌋

/-- Squared Euclidean distance between two points.  Every magnitude test in the
source compares a nonnegative `sqrt` against a nonnegative bound, so each is
modelled exactly by the equivalent comparison of squares. -/
def dist2 (p q : ℚ × ℚ) : ℚ := (p.1 - q.1) ^ 2 + (p.2 - q.2) ^ 2

/-- The actor state fields of `Player` (`src/player.rs`). -/
structure PlayerState where
  position : ℚ × ℚ
  speed : ℚ
  grid_size : ℚ
  moving : Bool
  target : ℚ × ℚ
  facing : ℚ × ℚ
deriving DecidableEq

/-- Per-tick key state: each flag models "arrow key or its WASD equivalent is
held" (the source always tests the two together). -/
structure KeyState where
  left : Bool
  right : Bool
  up : Bool
  down : Bool
deriving DecidableEq

/-- Constructor `Player::new`: bottom-right walkable bed tile, facing down. -/
def playerNew : PlayerState :=
  { position := (64, 384), speed := 160, grid_size := 32, moving := false,
    target := (64, 384), facing := (0, 1) }

/-- The input / direction-selection phase of `Player::update` (lines 91–157):
returns the state after facing, direction-change and target processing, plus
`true` when the direction-change branch took its early `return`. -/
def inputPhase (keys : KeyState) (p : PlayerState) : PlayerState × Bool :=
  let cgx := rustRound (p.position.1 / TILE)
  let cgy := rustRound (p.position.2 / TILE)
  let gp : ℚ × ℚ := ((cgx : ℚ) * TILE, (cgy : ℚ) * TILE)
  let isAt : Bool := decide (dist2 p.position gp < 1)
  let shouldCheck : Bool := !p.moving || isAt
  let nd : Option ((ℤ × ℤ) × (ℚ × ℚ)) :=
    if shouldCheck then
      if keys.left then some ((-1, 0), (-1, 0))
      else if keys.right then some ((1, 0), (1, 0))
      else if keys.up then some ((0, -1), (0, -1))
      else if keys.down then some ((0, 1), (0, 1))
      else none
    else none
  match nd with
  | none => (p, false)
  | some (d, f) =>
    let p0 := { p with facing := f }
    let pt : ℚ × ℚ := (((cgx + d.1 : ℤ) : ℚ) * TILE, ((cgy + d.2 : ℤ) : ℚ) * TILE)
    let dirChange : Bool :=
      if p0.moving && !isAt then
        decide ((sgnF (p0.target.1 - gp.1) ≠ sgnF (pt.1 - gp.1) ∧
                   |p0.target.1 - gp.1| > 1 / 10) ∨
                (sgnF (p0.target.2 - gp.2) ≠ sgnF (pt.2 - gp.2) ∧
                   |p0.target.2 - gp.2| > 1 / 10))
      else false
    if dirChange then ({ p0 with position := gp, moving := false }, true)
    else if !p0.moving || decide (dist2 p0.target pt > 1 / 100) then
      ({ p0 with target := pt, moving := true }, false)
    else (p0, false)

/-- The player's inset-hitbox movement query (hitbox 90% of the tile, centered),
as issued three times inside `Player::update`. -/
def movementAllowedHB (tiles : Grid) (fp tp : ℚ × ℚ) : Bool :=
  let hs := TILE * (9 / 10)
  let ho := (TILE - hs) / 2
  is_movement_allowed tiles (fp.1 + ho) (fp.2 + ho) (tp.1 + ho) (tp.2 + ho) hs hs

/-- The stepping phase of `Player::update` (lines 166–212), reached when
`moving` and the distance to the target is positive: snap-to-target when the
step covers the remaining distance, otherwise a single-axis increment. -/
def stepPhase (tiles : Grid) (dt : ℚ) (s : PlayerState) : PlayerState :=
  let d2 := dist2 s.target s.position
  let step := s.speed * dt
  if 0 ≤ step ∧ d2 ≤ step * step then
    if movementAllowedHB tiles s.position s.target then
      { s with position := s.target, moving := false }
    else { s with moving := false }
  else
    let dx := s.target.1 - s.position.1
    let dy := s.target.2 - s.position.2
    let mv : ℚ × ℚ :=
      if |dx| > |dy| then (if dx > 0 then step else -step, 0)
      else (0, if dy > 0 then step else -step)
    let np := (s.position.1 + mv.1, s.position.2 + mv.2)
    if movementAllowedHB tiles s.position np then { s with position := np }
    else { s with moving := false }

/-- The clamp at the end of `Player::update` (lines 216–218):
`position.max(0.0).min(extent - TILE_SIZE)` on each axis. -/
def clampPos (tiles : Grid) (q : ℚ × ℚ) : ℚ × ℚ :=
  (min (max q.1 0) ((widthPixels tiles : ℚ) - TILE),
   min (max q.2 0) ((heightPixels tiles : ℚ) - TILE))

/-- The final safeguard of `Player::update` (lines 221–228): when idle, snap to
the nearest lattice point if the position is more than 0.5 px away from it. -/
def snapIdle (q : ℚ × ℚ) : ℚ × ℚ :=
  if dist2 q ((rustRound (q.1 / TILE) : ℚ) * TILE,
      (rustRound (q.2 / TILE) : ℚ) * TILE) > 1 / 4 then
    ((rustRound (q.1 / TILE) : ℚ) * TILE, (rustRound (q.2 / TILE) : ℚ) * TILE)
  else q

/-- The tail of `Player::update` (lines 216–228): clamp into the map, then the
final safeguard for idle off-lattice positions. -/
def finishPhase (tiles : Grid) (s : PlayerState) : PlayerState :=
  if s.moving then { s with position := clampPos tiles s.position }
  else { s with position := snapIdle (clampPos tiles s.position) }

/-- Full tick `Player::update`: input phase (with its possible early return),
the `dist <= 0.0` early return, the stepping phase, then clamp and safeguard. -/
def playerUpdate (keys : KeyState) (dt : ℚ) (tiles : Grid) (p : PlayerState) :
    PlayerState :=
  let r := inputPhase keys p
  if r.2 then r.1
  else
    let s := r.1
    if s.moving then
      if dist2 s.target s.position ≤ 0 then { s with moving := false }
      else finishPhase tiles (stepPhase tiles dt s)
    else finishPhase tiles s

/-- The actor state fields of `Enemy` (`src/enemy.rs`). -/
structure EnemyState where
  position : ℚ × ℚ
  speed : ℚ
  grid_size : ℚ
  moving : Bool
  target : ℚ × ℚ
deriving DecidableEq

/-- Constructor `Enemy::new`: starts at `(200, 200)`, idle. -/
def enemyNew : EnemyState :=
  { position := (200, 200), speed := 80, grid_size := 32, moving := false,
    target := (200, 200) }

/-- The target-acquisition phase of `Enemy::update` (lines 41–54): when idle,
pick a one-grid-step target from the `f32::signum` of the deltas to the player,
horizontal branch first. -/
def enemyAcquireTarget (e : EnemyState) (playerPos : ℚ × ℚ) : EnemyState :=
  if !e.moving then
    let dx := sgnF (playerPos.1 - e.position.1)
    let dy := sgnF (playerPos.2 - e.position.2)
    if dx ≠ 0 then
      { e with target := (e.position.1 + dx * e.grid_size, e.position.2),
               moving := true }
    else if dy ≠ 0 then
      { e with target := (e.position.1, e.position.2 + dy * e.grid_size),
               moving := true }
    else e
  else e

/-! ### Helper lemmas -/

theorem mem_intRange {a b t : ℤ} : t ∈ intRange a b ↔ a ≤ t ∧ t ≤ b := by
  unfold intRange
  simp only [List.mem_map, List.mem_range]
  constructor
  · rintro ⟨i, hi, rfl⟩
    omega
  · rintro ⟨h1, h2⟩
    exact ⟨(t - a).toNat, by omega, by omega⟩

theorem self_mem_intRange {a b : ℤ} (h : a ≤ b) : a ∈ intRange a b :=
  mem_intRange.mpr ⟨le_refl a, h⟩

theorem getD_set_of_ne {α : Type} (l : List α) (i j : ℕ) (x d : α) (h : i ≠ j) :
    (l.set i x).getD j d = l.getD j d := by
  rw [List.getD_eq_getElem?_getD, List.getD_eq_getElem?_getD, List.getElem?_set_ne h]

theorem getD_set_self {α : Type} (l : List α) (i : ℕ) (x d : α) (h : i < l.length) :
    (l.set i x).getD i d = x := by
  rw [List.getD_eq_getElem?_getD, List.getElem?_set_self (by simpa using h)]
  rfl

theorem getD_mem_of_lt {α : Type} (l : List α) (i : ℕ) (d : α) (h : i < l.length) :
    l.getD i d ∈ l := by
  rw [List.getD_eq_getElem l d h]
  exact List.getElem_mem h

/-! ### C4: Map.set_current -/

/-- C4 counterexample: `set_current` does validate the index.  With one room,
`set_current 5` leaves the cursor at `0`, contradicting the claim that
`current == idx` holds afterwards regardless of bounds. -/
theorem set_current_out_of_range_cex :
    (Map.new.set_current 5).current = 0 ∧ (Map.new.set_current 5).current ≠ 5 := by
  constructor <;> with_unfolding_all decide

/-- C4 (amended): `Map::set_current(idx)` sets the cursor to `idx` exactly when
`idx < rooms.len()`, and leaves the map unchanged otherwise; the room list is
never modified. -/
theorem set_current_spec (m : Map) (idx : ℕ) :
    (m.set_current idx).current = (if idx < m.rooms.length then idx else m.current) ∧
    (m.set_current idx).rooms = m.rooms := by
  unfold Map.set_current
  split <;> simp

/-! ### C3: is_solid_at_point -/

/-- C3 counterexample: at the world point `(32, 32)` of the starting room,
`is_solid_at_point` reports `false`, yet the 1×1 probe rectangle centered at
that point (corner `(31.5, 31.5)`) is not free (it overlaps the wall tile
`(0,0)`) — so `is_solid_at_point` is not the centered-probe predicate. -/
theorem is_solid_at_point_centered_cex :
    is_solid_at_point room20x15 32 32 = false ∧
    is_rect_free room20x15 (63 / 2) (63 / 2) 1 1 = false := by
  constructor <;> with_unfolding_all decide

/-- C3 (amended): `is_solid_at_point(x, y)` is true exactly when the 1×1 probe
rectangle whose top-left corner is `(x, y)` (not its center) is not free. -/
theorem is_solid_at_point_spec (tiles : Grid) (x y : ℚ) :
    is_solid_at_point tiles x y = !(is_rect_free tiles x y 1 1) := by
  unfold is_solid_at_point
  cases h : is_rect_free tiles x y 1 1 <;> simp [h]

/-! ### C9: Enemy target acquisition -/

/-- C9: the claim is the code's clear intent, but `f32::signum` returns `1.0`
on `+0.0`, so `dx != 0.0` always holds and the vertical branch is dead code.
With the enemy idle at `(200, 200)` and the player at `(200, 100)` — zero
horizontal delta — the code acquires the target `(232, 200)` (a step east),
not the vertical step `(200, 168)` the claim requires.  The Scenario D input
(player at `(100, 100)`) does give `(168, 200)` as claimed. -/
theorem enemy_axis_priority_bug :
    (enemyAcquireTarget enemyNew (200, 100)).target = (232, 200) ∧
    (enemyAcquireTarget enemyNew (200, 100)).target ≠ (200, 168) ∧
    (enemyAcquireTarget enemyNew (200, 100)).moving = true ∧
    (enemyAcquireTarget enemyNew (100, 100)).target = (168, 200) := by
  refine ⟨?_, ?_, ?_, ?_⟩ <;> with_unfolding_all decide

/-! ### C10: interact_tile frame condition -/

/-- C10: `interact_tile(tx, ty)` never changes any cell other than `(tx, ty)`:
whether or not a toggle occurs, every other cell reads back unchanged. -/
theorem interact_tile_frame (tiles : Grid) (tx ty a b : ℕ)
    (hne : ¬(a = tx ∧ b = ty)) :
    tileAt (interact_tile tiles tx ty).1 a b = tileAt tiles a b := by
  have hset : ∀ t : Tile, tileAt (setTile tiles ty tx t) a b = tileAt tiles a b := by
    intro t
    unfold setTile tileAt
    by_cases hb : b = ty
    · subst hb
      have ha : a ≠ tx := fun h => hne ⟨h, rfl⟩
      by_cases hlen : b < tiles.length
      · rw [getD_set_self _ _ _ _ hlen, getD_set_of_ne _ _ _ _ _ (Ne.symm ha)]
      · rw [List.set_eq_of_length_le (by omega)]
    · rw [getD_set_of_ne _ _ _ _ _ (fun h => hb h.symm)]
  unfold interact_tile
  split
  · rfl
  · split
    · exact hset Tile.DoorOpen
    · exact hset Tile.DoorClosed
    · rfl

/-- C10 witness: toggling the door at `(10, 0)` leaves the wall at `(9, 0)`
unchanged. -/
theorem interact_tile_frame_witness :
    ¬((9 : ℕ) = 10 ∧ (0 : ℕ) = 0) ∧
    tileAt (interact_tile room20x15 10 0).1 9 0 = tileAt room20x15 9 0 :=
  ⟨by decide, interact_tile_frame room20x15 10 0 9 0 (by decide)⟩

/-! ### C6: interact_tile toggle behavior -/

/-- C6: on an in-bounds cell, `interact_tile` toggles `DoorClosed` to
`DoorOpen` (returning `true`), toggles `DoorOpen` to `DoorClosed` (returning
`true`), and on any other tile kind — or out of bounds — returns `false` with
the grid unchanged.  `W` is the common row width of the rectangular grid. -/
theorem interact_tile_spec (tiles : Grid) (W : ℕ) (tx ty : ℕ)
    (hrect : ∀ row ∈ tiles, row.length = W) :
    (ty < tiles.length → tx < W →
      ((tileAt tiles tx ty = Tile.DoorClosed →
          interact_tile tiles tx ty = (setTile tiles ty tx Tile.DoorOpen, true) ∧
          tileAt (interact_tile tiles tx ty).1 tx ty = Tile.DoorOpen) ∧
       (tileAt tiles tx ty = Tile.DoorOpen →
          interact_tile tiles tx ty = (setTile tiles ty tx Tile.DoorClosed, true) ∧
          tileAt (interact_tile tiles tx ty).1 tx ty = Tile.DoorClosed) ∧
       (tileAt tiles tx ty ≠ Tile.DoorClosed → tileAt tiles tx ty ≠ Tile.DoorOpen →
          interact_tile tiles tx ty = (tiles, false)))) ∧
    (¬(ty < tiles.length ∧ tx < W) → interact_tile tiles tx ty = (tiles, false)) := by
  constructor
  · intro hty htx
    have hrow : (tiles.getD ty []).length = W :=
      hrect _ (getD_mem_of_lt tiles ty [] hty)
    have hrow0 : (tiles.getD 0 []).length = W :=
      hrect _ (getD_mem_of_lt tiles 0 [] (by omega))
    have hguard : ¬(tiles.length ≤ ty ∨ (tiles.getD 0 []).length ≤ tx) := by
      rw [hrow0]; omega
    have hself : ∀ t : Tile, tileAt (setTile tiles ty tx t) tx ty = t := by
      intro t
      unfold setTile tileAt
      rw [getD_set_self _ _ _ _ hty, getD_set_self _ _ _ _ (by omega)]
    refine ⟨?_, ?_, ?_⟩ <;> intro hdc
    · have : interact_tile tiles tx ty = (setTile tiles ty tx Tile.DoorOpen, true) := by
        unfold interact_tile
        rw [if_neg hguard, hdc]
      exact ⟨this, by rw [this]; exact hself _⟩
    · have : interact_tile tiles tx ty = (setTile tiles ty tx Tile.DoorClosed, true) := by
        unfold interact_tile
        rw [if_neg hguard, hdc]
      exact ⟨this, by rw [this]; exact hself _⟩
    · intro hdo
      unfold interact_tile
      rw [if_neg hguard]
      cases h : tileAt tiles tx ty <;> first | rfl | exact absurd h hdc | exact absurd h hdo
  · intro hoob
    unfold interact_tile
    by_cases hty : ty < tiles.length
    · have htx : W ≤ tx := by omega
      have hrow0 : (tiles.getD 0 []).length = W :=
        hrect _ (getD_mem_of_lt tiles 0 [] (by omega))
      rw [if_pos (Or.inr (by omega))]
    · rw [if_pos (Or.inl (by omega))]

/-- C6 witness: the starting room's closed door at cell `(10, 0)` toggles to
`DoorOpen` with result `true`. -/
theorem interact_tile_spec_witness :
    (∀ row ∈ room20x15, row.length = 20) ∧ (0 : ℕ) < room20x15.length ∧
    (10 : ℕ) < 20 ∧ tileAt room20x15 10 0 = Tile.DoorClosed ∧
    (interact_tile room20x15 10 0 = (setTile room20x15 0 10 Tile.DoorOpen, true) ∧
      tileAt (interact_tile room20x15 10 0).1 10 0 = Tile.DoorOpen) :=
  ⟨by decide, by decide, by decide, by decide,
    ((interact_tile_spec room20x15 20 10 0 (by decide)).1 (by decide)
        (by decide)).1 (by decide)⟩

/-! ### C7: can_interact_tile -/

/-- C7: `can_interact_tile(tx, ty, ptx, pty)` is true iff the addressed cell is
in bounds, holds a door (closed or open), and is one of the four orthogonal
neighbors of the player's cell — so it is false for the same cell, diagonal
neighbors, cells at distance ≥ 2, out-of-bounds cells, and non-door tiles. -/
theorem can_interact_tile_spec (tiles : Grid) (W : ℕ) (tx ty ptx pty : ℕ)
    (hrect : ∀ row ∈ tiles, row.length = W) :
    can_interact_tile tiles tx ty ptx pty = true ↔
      (ty < tiles.length ∧ tx < W ∧
        (tileAt tiles tx ty = Tile.DoorClosed ∨ tileAt tiles tx ty = Tile.DoorOpen) ∧
        ((ty = pty ∧ (tx = ptx + 1 ∨ tx + 1 = ptx)) ∨
         (tx = ptx ∧ (ty = pty + 1 ∨ ty + 1 = pty)))) := by
  unfold can_interact_tile
  by_cases hguard : tiles.length ≤ ty ∨ (tiles.getD 0 []).length ≤ tx
  · rw [if_pos hguard]
    simp only [Bool.false_eq_true, false_iff]
    rintro ⟨hty, htx, -, -⟩
    have hrow0 : (tiles.getD 0 []).length = W :=
      hrect _ (getD_mem_of_lt tiles 0 [] (by omega))
    omega
  · rw [if_neg hguard]
    push_neg at hguard
    have hty : ty < tiles.length := by omega
    have hrow0 : (tiles.getD 0 []).length = W :=
      hrect _ (getD_mem_of_lt tiles 0 [] (by omega))
    have htx : tx < W := by omega
    cases h : tileAt tiles tx ty <;>
      [skip; skip; (rw [decide_eq_true_eq]); (rw [decide_eq_true_eq]); skip;
        skip; skip] <;>
      constructor <;>
      first
        | (intro hadj
           refine ⟨hty, htx, Or.inl rfl, by omega⟩)
        | (intro hadj
           refine ⟨hty, htx, Or.inr rfl, by omega⟩)
        | (rintro ⟨-, -, -, hadj⟩
           omega)
        | (intro hc
           exact absurd hc (by simp))

/-- C7 witness: the closed door at `(10, 0)` with the player at `(10, 1)`. -/
theorem can_interact_tile_spec_witness :
    (∀ row ∈ room20x15, row.length = 20) ∧
    (can_interact_tile room20x15 10 0 10 1 = true ↔
      (0 < room20x15.length ∧ 10 < 20 ∧
        (tileAt room20x15 10 0 = Tile.DoorClosed ∨
         tileAt room20x15 10 0 = Tile.DoorOpen) ∧
        (((0:ℕ) = 1 ∧ ((10:ℕ) = 10 + 1 ∨ (10:ℕ) + 1 = 10)) ∨
         ((10:ℕ) = 10 ∧ ((0:ℕ) = 1 + 1 ∨ (0:ℕ) + 1 = 1))))) :=
  ⟨by decide, can_interact_tile_spec room20x15 20 10 0 10 1 (by decide)⟩

/-! ### C2: is_rect_free fails closed -/

/-- C2: for any rectangle (nonnegative width and height) over a rectangular
grid of row width `W`, if `x` or `y` is negative, or the covered tile-index
range on either axis contains an index below `0` or at/above the grid extent,
then `is_rect_free` returns false.  In particular the Scenario C probe
`is_rect_free(-1, 5, 10, 10)` is false (see the witness). -/
theorem rect_free_fail_closed (tiles : Grid) (W : ℕ) (x y w h : ℚ)
    (hrect : ∀ row ∈ tiles, row.length = W) (hw : 0 ≤ w) (hh0 : 0 ≤ h)
    (hoob : x < 0 ∨ y < 0 ∨
      (∃ t ∈ intRange ⌊y / TILE⌋ ⌊(y + h) / TILE⌋,
        t < 0 ∨ (tiles.length : ℤ) ≤ t) ∨
      (∃ t ∈ intRange ⌊x / TILE⌋ ⌊(x + w) / TILE⌋, t < 0 ∨ (W : ℤ) ≤ t)) :
    is_rect_free tiles x y w h = false := by
  by_cases hneg : x < 0 ∨ y < 0
  · unfold is_rect_free
    rw [if_pos hneg]
  · push_neg at hneg
    obtain ⟨hx0, hy0⟩ := hneg
    have h32 : (0 : ℚ) < TILE := by norm_num [TILE]
    have hxf : 0 ≤ ⌊x / TILE⌋ := Int.floor_nonneg.mpr (div_nonneg hx0 (le_of_lt h32))
    have hyf : 0 ≤ ⌊y / TILE⌋ := Int.floor_nonneg.mpr (div_nonneg hy0 (le_of_lt h32))
    have hlr : ⌊x / TILE⌋ ≤ ⌊(x + w) / TILE⌋ :=
      Int.floor_le_floor ((div_le_div_iff_of_pos_right h32).mpr (by linarith))
    have htb : ⌊y / TILE⌋ ≤ ⌊(y + h) / TILE⌋ :=
      Int.floor_le_floor ((div_le_div_iff_of_pos_right h32).mpr (by linarith))
    unfold is_rect_free
    rw [if_neg (by simp only [not_or, not_lt]; exact ⟨hx0, hy0⟩)]
    rw [List.all_eq_false]
    rcases hoob with hx | hy | ⟨t, ht, hti⟩ | ⟨t, ht, hti⟩
    · exact absurd hx (not_lt.mpr hx0)
    · exact absurd hy (not_lt.mpr hy0)
    · have htr := mem_intRange.mp ht
      refine ⟨t, ht, ?_⟩
      rw [Bool.not_eq_true, List.all_eq_false]
      refine ⟨⌊x / TILE⌋, self_mem_intRange hlr, ?_⟩
      rw [Bool.not_eq_true]
      unfold cellFree
      rw [if_neg (by omega), if_pos (by omega)]
    · have htr := mem_intRange.mp ht
      refine ⟨⌊y / TILE⌋, self_mem_intRange htb, ?_⟩
      rw [Bool.not_eq_true, List.all_eq_false]
      refine ⟨t, ht, ?_⟩
      rw [Bool.not_eq_true]
      unfold cellFree
      rw [if_neg (by omega)]
      by_cases hlen : tiles.length ≤ (⌊y / TILE⌋).toNat
      · rw [if_pos hlen]
      · rw [if_neg hlen]
        have hrow : (tiles.getD (⌊y / TILE⌋).toNat []).length = W :=
          hrect _ (getD_mem_of_lt tiles _ [] (by omega))
        rw [if_pos (by omega)]

/-- C2 witness: Scenario C — the probe `is_rect_free(-1, 5, 10, 10)` on the
starting room fails closed on its negative `x`. -/
theorem rect_free_fail_closed_witness :
    (∀ row ∈ room20x15, row.length = 20) ∧ (0 : ℚ) ≤ 10 ∧ (0 : ℚ) ≤ 10 ∧
    ((-1 : ℚ) < 0 ∨ (5 : ℚ) < 0 ∨
      (∃ t ∈ intRange ⌊(5 : ℚ) / TILE⌋ ⌊((5 : ℚ) + 10) / TILE⌋,
        t < 0 ∨ (room20x15.length : ℤ) ≤ t) ∨
      (∃ t ∈ intRange ⌊(-1 : ℚ) / TILE⌋ ⌊((-1 : ℚ) + 10) / TILE⌋,
        t < 0 ∨ ((20 : ℕ) : ℤ) ≤ t)) ∧
    is_rect_free room20x15 (-1) 5 10 10 = false :=
  ⟨by decide, by norm_num, by norm_num, Or.inl (by norm_num),
    rect_free_fail_closed room20x15 20 (-1) 5 10 10 (by decide) (by norm_num)
      (by norm_num) (Or.inl (by norm_num))⟩

/-! ### C8: open-door frame margin -/

/-- C8: a `DoorOpen` cell covered by the probe rectangle blocks the rectangle
exactly when the rectangle overlaps the door's frame margin — 8% of the tile
size, perpendicular to the orientation inferred from horizontal vs. vertical
Wall/DoorClosed neighbors (`doorFrameBlocked`); and whenever that overlap
happens, `is_rect_free` returns false for the whole rectangle. -/
theorem door_frame_margin (tiles : Grid) (x y w h : ℚ) (ty tx : ℤ)
    (hx : 0 ≤ x) (hy : 0 ≤ y)
    (hty : ty ∈ intRange ⌊y / TILE⌋ ⌊(y + h) / TILE⌋)
    (htx : tx ∈ intRange ⌊x / TILE⌋ ⌊(x + w) / TILE⌋)
    (hbnd : ty.toNat < tiles.length ∧ tx.toNat < (tiles.getD ty.toNat []).length)
    (hdoor : tileAt tiles tx.toNat ty.toNat = Tile.DoorOpen) :
    (cellFree tiles x y w h ty tx = false ↔
       doorFrameBlocked tiles x y w h tx.toNat ty.toNat = true) ∧
    (doorFrameBlocked tiles x y w h tx.toNat ty.toNat = true →
       is_rect_free tiles x y w h = false) := by
  have h32 : (0 : ℚ) < TILE := by norm_num [TILE]
  have hty0 : 0 ≤ ty :=
    le_trans (Int.floor_nonneg.mpr (div_nonneg hy (le_of_lt h32)))
      (mem_intRange.mp hty).1
  have htx0 : 0 ≤ tx :=
    le_trans (Int.floor_nonneg.mpr (div_nonneg hx (le_of_lt h32)))
      (mem_intRange.mp htx).1
  have hcell : cellFree tiles x y w h ty tx =
      !(doorFrameBlocked tiles x y w h tx.toNat ty.toNat) := by
    unfold cellFree
    rw [if_neg (by omega), if_neg (by omega), if_neg (by omega), hdoor]
  constructor
  · rw [hcell]
    cases doorFrameBlocked tiles x y w h tx.toNat ty.toNat <;> simp
  · intro hblk
    unfold is_rect_free
    rw [if_neg (by simp only [not_or, not_lt]; exact ⟨hx, hy⟩)]
    rw [List.all_eq_false]
    refine ⟨ty, hty, ?_⟩
    rw [Bool.not_eq_true, List.all_eq_false]
    refine ⟨tx, htx, ?_⟩
    rw [Bool.not_eq_true, hcell, hblk]
    rfl

/-- C8 witness: open the starting room's door at `(10, 0)`; a 10×10 rectangle
at `(320, 1)` overlaps the horizontal door's top frame strip, and indeed the
cell blocks and the whole rectangle is reported not free. -/
theorem door_frame_margin_witness :
    (0 : ℚ) ≤ 320 ∧ (0 : ℚ) ≤ 1 ∧
    ((0 : ℤ) ∈ intRange ⌊(1 : ℚ) / TILE⌋ ⌊((1 : ℚ) + 10) / TILE⌋) ∧
    ((10 : ℤ) ∈ intRange ⌊(320 : ℚ) / TILE⌋ ⌊((320 : ℚ) + 10) / TILE⌋) ∧
    ((0 : ℤ).toNat < (interact_tile room20x15 10 0).1.length ∧
      (10 : ℤ).toNat <
        ((interact_tile room20x15 10 0).1.getD (0 : ℤ).toNat []).length) ∧
    tileAt (interact_tile room20x15 10 0).1 (10 : ℤ).toNat (0 : ℤ).toNat =
      Tile.DoorOpen ∧
    doorFrameBlocked (interact_tile room20x15 10 0).1 320 1 10 10
      (10 : ℤ).toNat (0 : ℤ).toNat = true ∧
    is_rect_free (interact_tile room20x15 10 0).1 320 1 10 10 = false :=
  ⟨by norm_num, by norm_num, by with_unfolding_all decide,
    by with_unfolding_all decide, by decide, by decide,
    by with_unfolding_all decide,
    (door_frame_margin (interact_tile room20x15 10 0).1 320 1 10 10 0 10
        (by norm_num) (by norm_num) (by with_unfolding_all decide)
        (by with_unfolding_all decide) (by decide) (by decide)).2
      (by with_unfolding_all decide)⟩

/-! ### C1: bed-nook movement rules -/

theorem top_bed_height {tiles : Grid} {x y : ℚ}
    (h : is_on_top_bed_tile tiles x y = true) : 4 ≤ tiles.length := by
  unfold is_on_top_bed_tile at h
  by_cases hc : 4 ≤ tiles.length ∧ 1 ≤ tileIndexSat x ∧ tileIndexSat x ≤ 2
  · exact hc.1
  · rw [if_neg hc] at h
    exact absurd h (by simp)

/-- C1 counterexample: a diagonal move from the top bed-door tile `(2,11)`
(point `(64,352)`) to the floor point `(96,351)` is eastward (`to_x > from_x`)
with a bed-door origin and a passing base rectangle check, yet
`is_movement_allowed` rejects it — rule 1 (northward block from the topmost
bed row, here `to_y = 351 < 352 = from_y`) takes priority, so "allowed iff
eastward and origin is a bed-door tile" is false as stated. -/
theorem bed_nook_movement_cex :
    is_rect_free room20x15 96 351 (144 / 5) (144 / 5) = true ∧
    is_on_top_bed_tile room20x15 64 352 = true ∧
    is_on_top_bed_tile room20x15 96 351 = false ∧
    (64 : ℚ) < 96 ∧
    is_bed_door_tile room20x15 64 352 = true ∧
    is_movement_allowed room20x15 64 352 96 351 (144 / 5) (144 / 5) = false := by
  refine ⟨?_, ?_, ?_, by norm_num, ?_, ?_⟩ <;> with_unfolding_all decide

/-- C1 (amended): given the base `is_rect_free` check passes: entering the bed
from outside is allowed iff the move is westward onto a bed-door tile; leaving
the bed is allowed iff the move is eastward from a bed-door tile **and** it is
not a northward move out of the topmost bed row (the rule-1 block, which also
covers diagonal north-east exits); bed-to-bed and non-bed-to-non-bed moves are
always allowed. -/
theorem bed_nook_movement (tiles : Grid) (fx fy tx ty w h : ℚ)
    (hfree : is_rect_free tiles tx ty w h = true) :
    (is_on_top_bed_tile tiles fx fy = false →
      is_on_top_bed_tile tiles tx ty = true →
      (is_movement_allowed tiles fx fy tx ty w h = true ↔
        tx < fx ∧ is_bed_door_tile tiles tx ty = true)) ∧
    (is_on_top_bed_tile tiles fx fy = true →
      is_on_top_bed_tile tiles tx ty = false →
      (is_movement_allowed tiles fx fy tx ty w h = true ↔
        (fx < tx ∧ is_bed_door_tile tiles fx fy = true ∧
          ¬(ty < fy ∧ tileIndexSat fy = tiles.length - 4)))) ∧
    (is_on_top_bed_tile tiles fx fy = true →
      is_on_top_bed_tile tiles tx ty = true →
      is_movement_allowed tiles fx fy tx ty w h = true) ∧
    (is_on_top_bed_tile tiles fx fy = false →
      is_on_top_bed_tile tiles tx ty = false →
      is_movement_allowed tiles fx fy tx ty w h = true) := by
  refine ⟨?_, ?_, ?_, ?_⟩ <;> intro hf ht
  · simp [is_movement_allowed, hfree, hf, ht]
  · have h4 : 4 ≤ tiles.length := top_bed_height hf
    by_cases hc : ty < fy ∧ tileIndexSat fy = tiles.length - 4
    · have hcex : ¬(fx < tx ∧ is_bed_door_tile tiles fx fy = true ∧
          ¬(ty < fy ∧ tileIndexSat fy = tiles.length - 4)) := by
        rintro ⟨-, -, hno⟩
        exact hno hc
      simp [is_movement_allowed, hfree, hf, ht, hc.1, hc.2, h4, hcex]
    · have hdec : ¬(4 ≤ tiles.length ∧ tileIndexSat fy = tiles.length - 4) ∨
          ¬(ty < fy) := by
        by_cases h1 : ty < fy
        · left
          rintro ⟨-, h2⟩
          exact hc ⟨h1, h2⟩
        · right
          exact h1
      rcases hdec with hd | hd <;>
        simp [is_movement_allowed, hfree, hf, ht, hd, hc, gt_iff_lt, and_assoc]
  · simp [is_movement_allowed, hfree, hf, ht]
  · simp [is_movement_allowed, hfree, hf, ht]

/-- C1 witness: entering the nook westward from the floor point `(96,352)`
onto the bed-door tile point `(64,352)` with the 90%-inset hitbox size. -/
theorem bed_nook_movement_witness :
    is_rect_free room20x15 64 352 (144 / 5) (144 / 5) = true ∧
    is_on_top_bed_tile room20x15 96 352 = false ∧
    is_on_top_bed_tile room20x15 64 352 = true ∧
    (is_movement_allowed room20x15 96 352 64 352 (144 / 5) (144 / 5) = true ↔
      (64 : ℚ) < 96 ∧ is_bed_door_tile room20x15 64 352 = true) :=
  ⟨by with_unfolding_all decide, by with_unfolding_all decide,
    by with_unfolding_all decide,
    (bed_nook_movement room20x15 96 352 64 352 (144 / 5) (144 / 5)
        (by with_unfolding_all decide)).1
      (by with_unfolding_all decide) (by with_unfolding_all decide)⟩

/-! ### C5: player grid-alignment invariant -/

/-- A coordinate exactly on the tile lattice. -/
def Aligned (q : ℚ) : Prop := ∃ i : ℤ, q = (i : ℚ) * TILE

/-- A coordinate within 0.5 px of an integer multiple of `TILE_SIZE`. -/
def NearAligned (q : ℚ) : Prop := ∃ i : ℤ, |q - (i : ℚ) * TILE| ≤ 1 / 2

/-- A player whose `target` is on the tile lattice on both axes — true of the
initial player and preserved by every tick, since targets are only ever set to
whole grid cells. -/
def TargetAligned (p : PlayerState) : Prop :=
  Aligned p.target.1 ∧ Aligned p.target.2

theorem aligned_near {q : ℚ} (h : Aligned q) : NearAligned q := by
  obtain ⟨i, rfl⟩ := h
  exact ⟨i, by simp⟩

theorem dist2_nonneg (a b : ℚ × ℚ) : 0 ≤ dist2 a b := by
  unfold dist2
  positivity

theorem dist2_zero_eq {a b : ℚ × ℚ} (h : dist2 a b = 0) : a = b := by
  unfold dist2 at h
  have h1 : a.1 - b.1 = 0 := by
    nlinarith [sq_nonneg (a.1 - b.1), sq_nonneg (a.2 - b.2)]
  have h2 : a.2 - b.2 = 0 := by
    nlinarith [sq_nonneg (a.1 - b.1), sq_nonneg (a.2 - b.2)]
  exact Prod.ext (by linarith) (by linarith)

theorem snapIdle_near (q : ℚ × ℚ) :
    NearAligned (snapIdle q).1 ∧ NearAligned (snapIdle q).2 := by
  unfold snapIdle
  split
  · exact ⟨⟨rustRound (q.1 / TILE), by simp⟩, ⟨rustRound (q.2 / TILE), by simp⟩⟩
  · rename_i hc
    push_neg at hc
    unfold dist2 at hc
    constructor
    · refine ⟨rustRound (q.1 / TILE), ?_⟩
      rw [abs_le]
      constructor <;>
        nlinarith [sq_nonneg (q.2 - (rustRound (q.2 / TILE) : ℚ) * TILE),
          sq_nonneg (q.1 - (rustRound (q.1 / TILE) : ℚ) * TILE - 1 / 2),
          sq_nonneg (q.1 - (rustRound (q.1 / TILE) : ℚ) * TILE + 1 / 2)]
    · refine ⟨rustRound (q.2 / TILE), ?_⟩
      rw [abs_le]
      constructor <;>
        nlinarith [sq_nonneg (q.1 - (rustRound (q.1 / TILE) : ℚ) * TILE),
          sq_nonneg (q.2 - (rustRound (q.2 / TILE) : ℚ) * TILE - 1 / 2),
          sq_nonneg (q.2 - (rustRound (q.2 / TILE) : ℚ) * TILE + 1 / 2)]

theorem finishPhase_moving (tiles : Grid) (s : PlayerState) :
    (finishPhase tiles s).moving = s.moving := by
  unfold finishPhase
  split <;> rfl

theorem finishPhase_near (tiles : Grid) (s : PlayerState) (h : s.moving = false) :
    NearAligned (finishPhase tiles s).position.1 ∧
    NearAligned (finishPhase tiles s).position.2 := by
  unfold finishPhase
  rw [h]
  simp only [Bool.false_eq_true, if_false]
  exact snapIdle_near _

theorem inputPhase_spec (keys : KeyState) (p : PlayerState)
    (htgt : TargetAligned p) :
    ((inputPhase keys p).2 = true →
      Aligned (inputPhase keys p).1.position.1 ∧
      Aligned (inputPhase keys p).1.position.2) ∧
    TargetAligned (inputPhase keys p).1 := by
  simp only [inputPhase]
  repeat' split
  all_goals first
    | contradiction
    | exact ⟨fun hfalse => Bool.noConfusion hfalse, htgt⟩
    | exact ⟨fun _ => ⟨⟨_, rfl⟩, ⟨_, rfl⟩⟩, htgt⟩
    | exact ⟨fun hfalse => Bool.noConfusion hfalse, ⟨_, rfl⟩, ⟨_, rfl⟩⟩

/-- C5 counterexample: the claim quantifies over every player state, but a
state with `moving = true` and an off-lattice `position == target` (reachable
only if the target invariant is broken) hits the `dist <= 0.0` early return:
the tick ends idle at `(10, 10)`, which is not within 0.5 px of any multiple
of 32. -/
theorem player_idle_grid_aligned_cex :
    (playerUpdate ⟨false, false, false, false⟩ 1 room20x15
      { position := (10, 10), speed := 160, grid_size := 32, moving := true,
        target := (10, 10), facing := (0, 1) }).moving = false ∧
    (playerUpdate ⟨false, false, false, false⟩ 1 room20x15
      { position := (10, 10), speed := 160, grid_size := 32, moving := true,
        target := (10, 10), facing := (0, 1) }).position.1 = 10 ∧
    ¬NearAligned (playerUpdate ⟨false, false, false, false⟩ 1 room20x15
      { position := (10, 10), speed := 160, grid_size := 32, moving := true,
        target := (10, 10), facing := (0, 1) }).position.1 := by
  have hpos : (playerUpdate ⟨false, false, false, false⟩ 1 room20x15
      { position := (10, 10), speed := 160, grid_size := 32, moving := true,
        target := (10, 10), facing := (0, 1) }).position.1 = 10 := by
    with_unfolding_all decide
  refine ⟨by with_unfolding_all decide, hpos, ?_⟩
  rw [hpos]
  rintro ⟨i, hi⟩
  rw [abs_le, TILE] at hi
  rcases le_or_lt i 0 with hneg | hpos'
  · have : (i : ℚ) ≤ 0 := by exact_mod_cast hneg
    linarith [hi.2]
  · have : (1 : ℚ) ≤ (i : ℚ) := by exact_mod_cast hpos'
    linarith [hi.1]

/-- C5 (amended): for every key state, `dt ≥ 0`, room grid, and player state
whose `target` is grid-aligned (true of all states the game constructs), after
`Player::update` returns with `moving == false` the position is within 0.5 px
of an integer multiple of `TILE_SIZE` on both axes. -/
theorem player_idle_grid_aligned (keys : KeyState) (dt : ℚ) (tiles : Grid)
    (p : PlayerState) (_hdt : 0 ≤ dt) (htgt : TargetAligned p) :
    (playerUpdate keys dt tiles p).moving = false →
      NearAligned (playerUpdate keys dt tiles p).position.1 ∧
      NearAligned (playerUpdate keys dt tiles p).position.2 := by
  intro hmov
  have hspec := inputPhase_spec keys p htgt
  simp only [playerUpdate] at hmov ⊢
  by_cases hr : (inputPhase keys p).2 = true
  · rw [if_pos hr] at hmov ⊢
    obtain ⟨hal1, hal2⟩ := hspec.1 hr
    exact ⟨aligned_near hal1, aligned_near hal2⟩
  · rw [if_neg hr] at hmov ⊢
    by_cases hm : (inputPhase keys p).1.moving = true
    · rw [if_pos hm] at hmov ⊢
      by_cases hd0 :
          dist2 (inputPhase keys p).1.target (inputPhase keys p).1.position ≤ 0
      · rw [if_pos hd0] at hmov ⊢
        have h0 : dist2 (inputPhase keys p).1.target
            (inputPhase keys p).1.position = 0 :=
          le_antisymm hd0 (dist2_nonneg _ _)
        have heq := dist2_zero_eq h0
        obtain ⟨ht1, ht2⟩ := hspec.2
        constructor
        · show NearAligned (inputPhase keys p).1.position.1
          rw [← heq]
          exact aligned_near ht1
        · show NearAligned (inputPhase keys p).1.position.2
          rw [← heq]
          exact aligned_near ht2
      · rw [if_neg hd0] at hmov ⊢
        rw [finishPhase_moving] at hmov
        exact finishPhase_near _ _ hmov
    · rw [if_neg hm] at hmov ⊢
      exact finishPhase_near _ _ (by simpa using hm)

/-- C5 witness: one idle tick with no keys held from the initial player state
(aligned target `(64, 384) = (2·32, 12·32)`); the tick ends idle and the
position is near-aligned on both axes. -/
theorem player_idle_grid_aligned_witness :
    (0 : ℚ) ≤ 1 ∧ TargetAligned playerNew ∧
    (playerUpdate ⟨false, false, false, false⟩ 1 room20x15 playerNew).moving =
      false ∧
    (NearAligned (playerUpdate ⟨false, false, false, false⟩ 1 room20x15
        playerNew).position.1 ∧
      NearAligned (playerUpdate ⟨false, false, false, false⟩ 1 room20x15
        playerNew).position.2) :=
  ⟨by norm_num, ⟨⟨2, by norm_num [playerNew, TILE]⟩, ⟨12, by norm_num [playerNew, TILE]⟩⟩,
    by with_unfolding_all decide,
    player_idle_grid_aligned ⟨false, false, false, false⟩ 1 room20x15 playerNew
      (by norm_num)
      ⟨⟨2, by norm_num [playerNew, TILE]⟩, ⟨12, by norm_num [playerNew, TILE]⟩⟩
      (by with_unfolding_all decide)⟩

end Tale
